import Mathlib

/-!
Shallow embedding of the Apolo_11 telemetry generator (`Proyecto.py`) and
report aggregator (`Reporte.py`), with theorems settling the specification
claims about them.

Randomness (`random.choice`, `random.randint`), timestamps (`datetime.now`)
and the per-epoch `uuid.uuid4` session identifier are modelled as explicit
inputs; file-system effects are modelled as explicit state values returned
by the translated functions.
-/

namespace Apolo11

/-! ## Configuration (`ConfigLoader` in `Proyecto.py`) -/

/-- Resolved configuration, as held by `ConfigLoader` after `__load_config`.
`missions` is an insertion-ordered dictionary, modelled as an association
list. -/
structure Config where
  output_path : String
  devices : List String
  missions : List (String × String)
  statuses : List String
  time_sleep : Nat
  num_files_range : List Nat
deriving Repr, DecidableEq

/-- Default `statuses` vocabulary from `__load_config`. -/
def defaultStatuses : List String :=
  ["excellent", "good", "warning", "faulty", "killed", "unknown"]

/-- Parsed content of `config.json`: each key either present (with its value)
or absent.  The real code performs no type validation, so values are taken
as-is at their documented types. -/
structure ConfigFile where
  output_path : Option String := none
  devices : Option (List String) := none
  missions : Option (List (String × String)) := none
  statuses : Option (List String) := none
  time_sleep : Option Nat := none
  num_files_range : Option (List Nat) := none

/-- Outcome of opening and JSON-parsing the configuration path:
`missing` models `FileNotFoundError`, `badJson` models
`json.JSONDecodeError`, `parsed` a successfully decoded object. -/
inductive ConfigSource where
  | missing
  | badJson
  | parsed (f : ConfigFile)

/-- Translation of `ConfigLoader.__load_config`: on any failure the process
exits with status 1 (modelled as `Except.error 1`, carrying no
configuration); otherwise each absent key falls back to its default via
`dict.get`. -/
def load_config : ConfigSource → Except Nat Config
  | .missing => .error 1
  | .badJson => .error 1
  | .parsed f => .ok
      { output_path := f.output_path.getD "./devices"
        devices := f.devices.getD []
        missions := f.missions.getD []
        statuses := f.statuses.getD defaultStatuses
        time_sleep := f.time_sleep.getD 20
        num_files_range := f.num_files_range.getD [1, 100] }

/-! ## Telemetry record and its JSON serialization -/

/-- One telemetry record, with the five keys in the insertion order used by
`DataGenerator.generate_file_data`. -/
structure Record where
  date : String
  mission : String
  device_type : String
  device_status : String
  hash : String
deriving Repr, DecidableEq

instance : Inhabited Record := ⟨⟨"", "", "", "", ""⟩⟩

/-- Lowercase hexadecimal digit. -/
def hexCharLower (n : Nat) : Char :=
  if n < 10 then Char.ofNat (48 + n) else Char.ofNat (87 + n)

/-- A `\uXXXX` escape as produced by Python's `json.dumps`. -/
def uEscape (n : Nat) : List Char :=
  ['\\', 'u', hexCharLower ((n >>> 12) &&& 15), hexCharLower ((n >>> 8) &&& 15),
   hexCharLower ((n >>> 4) &&& 15), hexCharLower (n &&& 15)]

/-- Escaping of one character inside a JSON string, following Python's
`json.dumps` with its default `ensure_ascii=True` (escape `"` and `\`, use
the short escapes for the usual control characters, `\uXXXX` for everything
outside `0x20`–`0x7e`, surrogate pairs above `0xffff`). -/
def jsonEscapeChar (c : Char) : List Char :=
  if c = '"' then ['\\', '"']
  else if c = '\\' then ['\\', '\\']
  else if c = '\n' then ['\\', 'n']
  else if c = '\t' then ['\\', 't']
  else if c = '\r' then ['\\', 'r']
  else if c.toNat = 8 then ['\\', 'b']
  else if c.toNat = 12 then ['\\', 'f']
  else if 32 ≤ c.toNat ∧ c.toNat ≤ 126 then [c]
  else if c.toNat < 65536 then uEscape c.toNat
  else
    uEscape (55296 + ((c.toNat - 65536) >>> 10)) ++
      uEscape (56320 + ((c.toNat - 65536) &&& 1023))

/-- JSON string literal for `s`, Python `json.dumps` style. -/
def jsonStr (s : String) : String :=
  String.mk ('"' :: s.data.foldr (fun c acc => jsonEscapeChar c ++ acc) ['"'])

/-- Translation of `json.dumps(data)` for the record dictionary built by
`generate_file_data`: default separators `", "` and `": "`, keys in
insertion order (`date`, `mission`, `device_type`, `device_status`,
`hash`). -/
def json_dumps (r : Record) : String :=
  "\x7b\"date\": " ++ jsonStr r.date ++
  ", \"mission\": " ++ jsonStr r.mission ++
  ", \"device_type\": " ++ jsonStr r.device_type ++
  ", \"device_status\": " ++ jsonStr r.device_status ++
  ", \"hash\": " ++ jsonStr r.hash ++ "\x7d"

/-! ## SHA-256 (`hashlib.sha256(...).hexdigest()`)

Executable FIPS 180-4 SHA-256 over byte lists, with 32-bit words
represented as `Nat` reduced modulo `2 ^ 32` where overflow matters. -/

/-- UTF-8 encoding of one code point (Python `str.encode()`). -/
def utf8Encode (n : Nat) : List Nat :=
  if n < 128 then [n]
  else if n < 2048 then [192 ||| (n >>> 6), 128 ||| (n &&& 63)]
  else if n < 65536 then
    [224 ||| (n >>> 12), 128 ||| ((n >>> 6) &&& 63), 128 ||| (n &&& 63)]
  else
    [240 ||| (n >>> 18), 128 ||| ((n >>> 12) &&& 63),
     128 ||| ((n >>> 6) &&& 63), 128 ||| (n &&& 63)]

/-- UTF-8 bytes of a string. -/
def strBytes (s : String) : List Nat :=
  s.data.foldr (fun c acc => utf8Encode c.toNat ++ acc) []

/-- Addition modulo `2 ^ 32`. -/
def add32 (x y : Nat) : Nat := (x + y) % 4294967296

/-- Right rotation of a 32-bit word. -/
def rotr32 (n x : Nat) : Nat := ((x >>> n) ||| (x <<< (32 - n))) &&& 4294967295

/-- SHA-256 `Ch` function. -/
def shaCh (x y z : Nat) : Nat := (x &&& y) ^^^ ((x ^^^ 4294967295) &&& z)

/-- SHA-256 `Maj` function. -/
def shaMaj (x y z : Nat) : Nat := (x &&& y) ^^^ (x &&& z) ^^^ (y &&& z)

/-- SHA-256 `Σ₀`. -/
def bigSigma0 (x : Nat) : Nat := rotr32 2 x ^^^ rotr32 13 x ^^^ rotr32 22 x

/-- SHA-256 `Σ₁`. -/
def bigSigma1 (x : Nat) : Nat := rotr32 6 x ^^^ rotr32 11 x ^^^ rotr32 25 x

/-- SHA-256 `σ₀`. -/
def smallSigma0 (x : Nat) : Nat := rotr32 7 x ^^^ rotr32 18 x ^^^ (x >>> 3)

/-- SHA-256 `σ₁`. -/
def smallSigma1 (x : Nat) : Nat := rotr32 17 x ^^^ rotr32 19 x ^^^ (x >>> 10)

/-- SHA-256 round constants (FIPS 180-4, written in decimal). -/
def shaK : List Nat :=
  [1116352408, 1899447441, 3049323471, 3921009573,
   961987163, 1508970993, 2453635748, 2870763221,
   3624381080, 310598401, 607225278, 1426881987,
   1925078388, 2162078206, 2614888103, 3248222580,
   3835390401, 4022224774, 264347078, 604807628,
   770255983, 1249150122, 1555081692, 1996064986,
   2554220882, 2821834349, 2952996808, 3210313671,
   3336571891, 3584528711, 113926993, 338241895,
   666307205, 773529912, 1294757372, 1396182291,
   1695183700, 1986661051, 2177026350, 2456956037,
   2730485921, 2820302411, 3259730800, 3345764771,
   3516065817, 3600352804, 4094571909, 275423344,
   430227734, 506948616, 659060556, 883997877,
   958139571, 1322822218, 1537002063, 1747873779,
   1955562222, 2024104815, 2227730452, 2361852424,
   2428436474, 2756734187, 3204031479, 3329325298]

/-- SHA-256 initial hash value (FIPS 180-4, written in decimal). -/
def shaH0 : List Nat :=
  [1779033703, 3144134277, 1013904242, 2773480762,
   1359893119, 2600822924, 528734635, 1541459225]

/-- Next message-schedule word, with the schedule so far in reverse order
(head is the most recent word). -/
def schedExt (wrev : List Nat) : Nat :=
  add32 (add32 (smallSigma1 (wrev.getD 1 0)) (wrev.getD 6 0))
        (add32 (smallSigma0 (wrev.getD 14 0)) (wrev.getD 15 0))

/-- Extend the (reversed) message schedule by `k` words. -/
def buildW : Nat → List Nat → List Nat
  | 0, wrev => wrev
  | k + 1, wrev => buildW k (schedExt wrev :: wrev)

/-- One SHA-256 compression round on the eight-word working state. -/
def compressStep (st : List Nat) (kw : Nat × Nat) : List Nat :=
  match st with
  | [a, b, c, d, e, f, g, h] =>
    let t1 := add32 (add32 (add32 h (bigSigma1 e)) (add32 (shaCh e f g) kw.1)) kw.2
    let t2 := add32 (bigSigma0 a) (shaMaj a b c)
    [add32 t1 t2, a, b, c, add32 d t1, e, f, g]
  | other => other

/-- Process one 16-word message block. -/
def compressBlock (h : List Nat) (block : List Nat) : List Nat :=
  let w := (buildW 48 block.reverse).reverse
  let st := (shaK.zip w).foldl compressStep h
  List.zipWith add32 h st

/-- Big-endian byte representation of `n` on `len` bytes. -/
def natToBytesBE (n len : Nat) : List Nat :=
  (List.range len).map fun i => (n >>> (8 * (len - 1 - i))) &&& 255

/-- SHA-256 padding: `0x80`, zeros to 56 mod 64, 64-bit big-endian bit
length. -/
def padMessage (msg : List Nat) : List Nat :=
  let z := (64 + 56 - (msg.length + 1) % 64) % 64
  msg ++ [128] ++ List.replicate z 0 ++ natToBytesBE (8 * msg.length) 8

/-- Group bytes into big-endian 32-bit words. -/
def bytesToWords : List Nat → List Nat
  | b0 :: b1 :: b2 :: b3 :: rest =>
      (((b0 * 256 + b1) * 256 + b2) * 256 + b3) :: bytesToWords rest
  | _ => []

/-- Split a word list into `k` blocks of 16 words. -/
def chunkBlocks : Nat → List Nat → List (List Nat)
  | 0, _ => []
  | k + 1, ws => ws.take 16 :: chunkBlocks k (ws.drop 16)

/-- The eight final SHA-256 state words of a byte message. -/
def sha256words (msg : List Nat) : List Nat :=
  let ws := bytesToWords (padMessage msg)
  (chunkBlocks (ws.length / 16) ws).foldl compressBlock shaH0

/-- Hex digest of SHA-256, as `hashlib.sha256(bytes).hexdigest()`. -/
def sha256hex (msg : List Nat) : String :=
  String.mk (((sha256words msg).map fun w =>
    (List.range 8).map fun i => hexCharLower ((w >>> (4 * (7 - i))) &&& 15)).flatten)

/-! ## Data generator (`DataGenerator` in `Proyecto.py`)

`random.choice` and `random.randint` are modelled by explicit draw values:
`random.choice(l)` with draw `r` picks index `r % l.length` (any index is
reachable by some draw) and raises `IndexError` on an empty sequence
(modelled as `none`); `random.randint(a, b)` with draw `r` yields
`a + r % (b - a + 1)` and raises `ValueError` when `b < a`. -/

/-- Python `random.choice`. -/
def rchoice {α : Type} (l : List α) (r : Nat) : Option α :=
  l[r % l.length]?

/-- Python `random.randint` (inclusive bounds). -/
def randint (a b r : Nat) : Option Nat :=
  if a ≤ b then some (a + r % (b - a + 1)) else none

/-- Python `str.startswith`, as a character-prefix test. -/
def pyStartsWith (s pre : String) : Bool :=
  pre.data.isPrefixOf s.data

/-- The random draws and timestamp consumed while generating one file. -/
structure Draw where
  missionIdx : Nat
  deviceIdx : Nat
  statusIdx : Nat
  now : String

/-- Translation of `DataGenerator.generate_random_status`. -/
def generate_random_status (cfg : Config) (r : Nat) : Option String :=
  rchoice cfg.statuses r

/-- Translation of `DataGenerator.generate_hash`: SHA-256 hex digest of the
record dictionary converted to a JSON string. -/
def generate_hash (data : Record) : String :=
  sha256hex (strBytes (json_dumps data))

/-- Translation of `DataGenerator.generate_file_data`: draw a device and a
status (both draws are taken even when later discarded), stamp the time,
and for the `"Unknown"` mission overwrite mission with the session
identifier and force both device fields to `"unknown"`.  The `hash` key is
initialized to the empty string. -/
def generate_file_data (cfg : Config) (mission : String) (unique_id : String)
    (d : Draw) : Option Record := do
  let device ← rchoice cfg.devices d.deviceIdx
  let status ← generate_random_status cfg d.statusIdx
  let data : Record :=
    { date := d.now, mission := mission, device_type := device,
      device_status := status, hash := "" }
  if mission = "Unknown" then
    return { data with mission := unique_id, device_type := "unknown",
                       device_status := "unknown" }
  else
    return data

/-- The mission keys, `list(self.__config_loader.missions.keys())`. -/
def missionKeys (cfg : Config) : List String :=
  cfg.missions.map Prod.fst

/-- Dictionary access `self.__config_loader.missions[mission]` (first
binding wins; always present at the call site because `mission` was drawn
from the keys). -/
def missionCode (cfg : Config) (mission : String) : String :=
  (cfg.missions.lookup mission).getD ""

/-- File name `f"APL{code}-0000{i}.log"`. -/
def fileName (code : String) (i : Nat) : String :=
  "APL" ++ code ++ "-0000" ++ toString i ++ ".log"

/-- One iteration of the write loop in `DataGenerator.generate_files`: draw
a mission, build the file name, synthesize the record, and attach the hash
exactly when the file name does not start with `"APLUNKN"`.  `none` models
an exception escaping the iteration (empty `missions`, `devices` or
`statuses`). -/
def genStep (cfg : Config) (unique_id : String) (d : Draw) (i : Nat) :
    Option (String × Record) := do
  let mission ← rchoice (missionKeys cfg) d.missionIdx
  let file_name := fileName (missionCode cfg mission) i
  let data ← generate_file_data cfg mission unique_id d
  let data :=
    if pyStartsWith file_name "APLUNKN" then data
    else { data with hash := generate_hash data }
  return (file_name, data)

/-- Result of the write loop: the files written so far, and whether the loop
finished without an exception. -/
structure GenOutcome where
  ok : Bool
  files : List (String × Record)
deriving Repr, DecidableEq

/-- The `for i in range(1, num_files + 1)` loop of `generate_files`, with
`i` the current index and the second argument the remaining iteration
count.  An exception stops the loop; files already written stay on disk. -/
def genLoop (cfg : Config) (unique_id : String) (ds : Nat → Draw) :
    Nat → Nat → GenOutcome
  | _, 0 => ⟨true, []⟩
  | i, k + 1 =>
    match genStep cfg unique_id (ds i) i with
    | none => ⟨false, []⟩
    | some f =>
      let rest := genLoop cfg unique_id ds (i + 1) k
      ⟨rest.ok, f :: rest.files⟩

/-- Nondeterministic inputs of one `generate_files` call: the file-count
draw, the `uuid.uuid4()` session identifier, and the per-index draws. -/
structure EpochInput where
  numDraw : Nat
  unique_id : String
  draws : Nat → Draw

/-- Observable outcome of one `generate_files` call. -/
structure EpochResult where
  /-- An exception escaped `generate_files` itself: when `randint` raises
  (`num_files_range` malformed), the cleanup code then hits an unbound
  `folder_path` (`NameError`), which no handler catches. -/
  crashed : Bool
  folder_name : String
  num_files : Option Nat
  written : List (String × Record)
  gen_error : Bool
  slept : Bool
  /-- Files present in the epoch folder after the cleanup phase.  The
  cleanup loop only opens each file for reading and closes it again; it
  removes nothing. -/
  files_after_cleanup : List (String × Record)
  /-- Whether `os.removedirs(folder_path)` succeeded; it raises `OSError`
  (caught and logged) when the directory is not empty. -/
  dir_removed : Bool
deriving Repr, DecidableEq

/-- Translation of `DataGenerator.generate_files`: draw `num_files`, create
the epoch folder `f"{iteration_count}_{num_files}"`, generate one session
identifier, run the write loop, sleep (skipped when an exception was
caught), then run the cleanup phase. -/
def generate_files (cfg : Config) (iteration_count : Nat) (inp : EpochInput) :
    EpochResult :=
  match cfg.num_files_range with
  | a :: b :: _ =>
    match randint a b inp.numDraw with
    | none =>
      { crashed := true, folder_name := "", num_files := none, written := [],
        gen_error := true, slept := false, files_after_cleanup := [],
        dir_removed := false }
    | some n =>
      let folder_name := toString iteration_count ++ "_" ++ toString n
      let out := genLoop cfg inp.unique_id inp.draws 1 n
      { crashed := false
        folder_name := folder_name
        num_files := some n
        written := out.files
        gen_error := !out.ok
        slept := out.ok
        files_after_cleanup := out.files
        dir_removed := out.files.isEmpty }
  | _ =>
    { crashed := true, folder_name := "", num_files := none, written := [],
      gen_error := true, slept := false, files_after_cleanup := [],
      dir_removed := false }

/-- The `while True` loop of `DataGenerator.run_proyecto`: iteration count
after `k` steps together with every epoch result so far. -/
def run_proyecto_steps (cfg : Config) (inps : Nat → EpochInput) :
    Nat → Nat × List EpochResult
  | 0 => (0, [])
  | k + 1 =>
    let (it, rs) := run_proyecto_steps cfg inps k
    (it + 1, rs ++ [generate_files cfg (it + 1) (inps k)])

/-! ## Report generator (`ReportGenerator` in `Reporte.py`)

The pandas operations are modelled at the level the claims are about: a
`DataFrame` is a column-name list plus a row list; `groupby(...).size()`
raises `KeyError` when a grouping column is absent (so on the empty frame
`pd.DataFrame([])`, which has no columns at all) and otherwise counts rows
per key tuple, with groups emitted in sorted key order (`sort=True`, the
pandas default).  The text rendering of a grouped table (`to_string` after
`unstack`) is abstracted to a fixed deterministic rendering of the grouped
counts; the claims under verification depend on error behavior and on the
rendered text being a function of the grouped counts, not on pandas' exact
layout. -/

/-- Columns of a frame built from generated record files, in key order. -/
def recordColumns : List String :=
  ["date", "mission", "device_type", "device_status", "hash"]

/-- Tabular collection of records. -/
structure DataFrame where
  cols : List String
  rows : List Record
deriving Repr, DecidableEq

/-- Translation of `pd.DataFrame(data)` for a list of record dictionaries:
the empty list yields a frame with no columns. -/
def pdDataFrame (data : List Record) : DataFrame :=
  { cols := if data.isEmpty then [] else recordColumns, rows := data }

/-- Column projection of one row. -/
def getField (r : Record) : String → String
  | "date" => r.date
  | "mission" => r.mission
  | "device_type" => r.device_type
  | "device_status" => r.device_status
  | "hash" => r.hash
  | _ => ""

/-- Key tuple of a row for a grouping column list. -/
def keyTuple (ks : List String) (r : Record) : List String :=
  ks.map (getField r)

/-- Grouped row counts, one entry per distinct key tuple, in sorted key
order (`groupby(ks).size()` with the default `sort=True`). -/
def groupSizes (ks : List String) (rows : List Record) :
    List (List String × Nat) :=
  (List.insertionSort (· ≤ ·) (rows.map (keyTuple ks)).dedup).map
    fun k => (k, rows.countP (fun r => keyTuple ks r == k))

/-- Translation of `df.groupby(ks).size()`: `KeyError` when a grouping
column is missing from the frame. -/
def groupbySize (df : DataFrame) (ks : List String) :
    Except String (List (List String × Nat)) :=
  if ks.all (fun k => df.cols.contains k) then .ok (groupSizes ks df.rows)
  else .error "KeyError"

/-- Translation of the boolean-mask row selection `df[df['device_status']
...]`: the column lookup itself raises `KeyError` when absent. -/
def filterByStatus (df : DataFrame) (p : String → Bool) :
    Except String DataFrame :=
  if df.cols.contains "device_status" then
    .ok { cols := df.cols, rows := df.rows.filter fun r => p r.device_status }
  else .error "KeyError"

/-- Deterministic rendering of one key tuple. -/
def renderKey (k : List String) : String :=
  String.intercalate ", " k

/-- Deterministic rendering of grouped counts (stand-in for
`unstack().to_string()` / `to_string()`). -/
def renderGroups (g : List (List String × Nat)) : String :=
  String.intercalate "\n" (g.map fun kv => renderKey kv.1 ++ ": " ++ toString kv.2)

/-- Deterministic rendering of grouped percentages, kept as exact
rationals. -/
def renderPercentages (total : Nat) (g : List (List String × Nat)) : String :=
  String.intercalate "\n" (g.map fun kv =>
    let q : ℚ := (kv.2 : ℚ) / (total : ℚ) * 100
    renderKey kv.1 ++ ": " ++ toString q.num ++ "/" ++ toString q.den)

/-- Translation of `ReportGenerator.analyze_events`. -/
def analyze_events (df : DataFrame) : Except String String := do
  let g ← groupbySize df ["mission", "device_type", "device_status"]
  return "\n\nb) Analisis de eventos\n" ++ renderGroups g

/-- Translation of `ReportGenerator.detect_disconnections`. -/
def detect_disconnections (df : DataFrame) : Except String String := do
  let sub ← filterByStatus df (· == "unknown")
  let g ← groupbySize sub ["mission", "device_type"]
  return "\n\nc) Gestion de desconexiones\n" ++ renderGroups g

/-- Translation of `ReportGenerator.consolidate_missions`. -/
def consolidate_missions (df : DataFrame) : Except String String := do
  let sub ← filterByStatus df
    (fun s => ["faulty", "killed", "unknown"].contains s)
  let g ← groupbySize sub ["mission"]
  return "\n\nd) Consolidacion de misiones\n" ++ renderGroups g

/-- Translation of `ReportGenerator.calculate_percentages`. -/
def calculate_percentages (df : DataFrame) : Except String String := do
  let total := df.rows.length
  let g ← groupbySize df ["mission", "device_type"]
  return "\n\ne) Calculo de porcentajes\n" ++ renderPercentages total g

/-- Report file name `f"APLSTATS-REPORT[{folder_name}]-{timestamp}.log"`,
with the `datetime.now().strftime('%d%m%y%H%M%S')` timestamp an explicit
input. -/
def reportFileName (folder_name timestamp : String) : String :=
  "APLSTATS-REPORT[" ++ folder_name ++ "]-" ++ timestamp ++ ".log"

/-- Body written by `ReportGenerator.generate_report`: the four sections are
computed and written one after another, so an exception in one section
(caught by the surrounding handler) leaves the sections already written. -/
def report_body (df : DataFrame) : String :=
  match analyze_events df with
  | .error _ => ""
  | .ok b =>
    match detect_disconnections df with
    | .error _ => b
    | .ok c =>
      match consolidate_missions df with
      | .error _ => b ++ c
      | .ok d =>
        match calculate_percentages df with
        | .error _ => b ++ c ++ d
        | .ok e => b ++ c ++ d ++ e

/-- Translation of `ReportGenerator.generate_report`: the report file name
and the body written into it. -/
def generate_report (folder_name : String) (df : DataFrame)
    (timestamp : String) : String × String :=
  (reportFileName folder_name timestamp, report_body df)

/-- Translation of `ReportGenerator.generate_analysis_reports` over a
devices tree given as a list of epoch folders with their loaded records
(`load_data` order included), with one timestamp per processed folder. -/
def generate_analysis_reports (tree : List (String × List Record))
    (stamps : Nat → String) : List (String × String × String) :=
  (tree.zip (List.range tree.length)).map fun e =>
    (e.1.1, generate_report e.1.1 (pdDataFrame e.1.2) (stamps e.2))

/-! ## Archiver (`ReportGenerator.move_devices_to_backup`) -/

/-- File-system state relevant to archiving: the immediate subdirectory
names of the devices root and of the backup root, and whether the backup
root exists. -/
structure BackupFS where
  devicesSubdirs : List String
  backups : List String
  backupRootExists : Bool
deriving Repr, DecidableEq

/-- The `os.replace` loop over the `os.listdir` snapshot, with a failure
oracle (`fail i = true` means the `i`-th `os.replace` raises `OSError`).
On success the subdirectory is removed from the devices root and placed
under the backup root, overwriting a same-named prior backup; an error
carries the state at the raise point. -/
def archiveLoopE (fail : Nat → Bool) :
    List String → Nat → List String → List String →
    Except (List String × List String) (List String × List String)
  | [], _, dev, bk => .ok (dev, bk)
  | x :: rest, idx, dev, bk =>
    if fail idx then .error (dev, bk)
    else archiveLoopE fail rest (idx + 1)
      (dev.filter fun y => y ≠ x) (List.insert x bk)

/-- Translation of `ReportGenerator.move_devices_to_backup`: ensure the
backup root exists (`os.makedirs(..., exist_ok=True)`), move each
subdirectory, and catch any exception so that it never propagates to the
caller (the state at the raise point is kept as-is). -/
def move_devices_to_backup (fs : BackupFS) (fail : Nat → Bool) : BackupFS :=
  match archiveLoopE fail fs.devicesSubdirs 0 fs.devicesSubdirs fs.backups with
  | .ok (dev, bk) =>
    { devicesSubdirs := dev, backups := bk, backupRootExists := true }
  | .error (dev, bk) =>
    { devicesSubdirs := dev, backups := bk, backupRootExists := true }

/-! ## Spec-side definition for the hash refinement claim

The specification describes the stored hash as computed over "the record's
other four fields (date, mission, device_type, device_status) JSON-serialized
with stable key ordering and excluding the hash field itself".  This
definition follows those words (same stable key order, hash key left out),
to be compared against `generate_hash`, which the source applies to the
full five-key dictionary whose `hash` entry holds the empty string. -/

/-- SHA-256 hex digest of the four non-hash fields of a record,
JSON-serialized with stable key ordering, excluding the hash field —
the digest described by the claim's words. -/
def claimed_record_digest (r : Record) : String :=
  sha256hex (strBytes
    ("\x7b\"date\": " ++ jsonStr r.date ++
     ", \"mission\": " ++ jsonStr r.mission ++
     ", \"device_type\": " ++ jsonStr r.device_type ++
     ", \"device_status\": " ++ jsonStr r.device_status ++ "\x7d"))

/-! ## Concrete instances used by counterexamples and witnesses -/

/-- Fixed draw/timestamp bundle. -/
def stdDraw : Draw := ⟨0, 0, 0, "2024-01-01T00:00:00"⟩

/-- Fixed epoch input. -/
def stdInp : EpochInput := ⟨0, "session-1", fun _ => stdDraw⟩

/-- The spec's scenario configuration (two files per epoch). -/
def scenarioCfg : Config :=
  { output_path := "./devices", devices := ["sensor"],
    missions := [("Apollo", "1")], statuses := ["good"],
    time_sleep := 0, num_files_range := [2, 2] }

/-- One-file variant of the scenario configuration. -/
def oneFileCfg : Config :=
  { output_path := "./devices", devices := ["sensor"],
    missions := [("Apollo", "1")], statuses := ["good"],
    time_sleep := 0, num_files_range := [1, 1] }

/-- Configuration whose `"Unknown"` mission maps to a short code that does
not start with `"UNKN"`. -/
def unknownOddCodeCfg : Config :=
  { output_path := "./devices", devices := ["sensor"],
    missions := [("Unknown", "ABC")], statuses := ["good"],
    time_sleep := 0, num_files_range := [1, 1] }

/-- Configuration whose `"Unknown"` mission maps to the code `"UNKN"`. -/
def unknownUnknCodeCfg : Config :=
  { output_path := "./devices", devices := ["sensor"],
    missions := [("Unknown", "UNKN")], statuses := ["good"],
    time_sleep := 0, num_files_range := [1, 1] }

/-- The all-defaults configuration (every key absent from the file). -/
def defaultCfg : Config :=
  { output_path := "./devices", devices := [], missions := [],
    statuses := defaultStatuses, time_sleep := 20,
    num_files_range := [1, 100] }

/-- Sample records for the report theorems. -/
def recA : Record := ⟨"2024-01-01T00:00:00", "Apollo", "sensor", "good", "h1"⟩

/-- Second sample record. -/
def recB : Record := ⟨"2024-01-01T00:00:01", "Apollo", "probe", "unknown", ""⟩

/-- Sample archiver state. -/
def fsSample : BackupFS := ⟨["1_2", "2_5"], [], false⟩

/-! ## Helper lemmas about the generator -/

theorem rchoice_ne_nil {α : Type} {l : List α} (h : l ≠ []) (r : Nat) :
    ∃ x, rchoice l r = some x := by
  have hlen : 0 < l.length := List.length_pos.mpr h
  have hm : r % l.length < l.length := Nat.mod_lt _ hlen
  exact ⟨l.get ⟨r % l.length, hm⟩, by simp [rchoice, List.getElem?_eq_getElem hm]⟩

theorem generate_file_data_hash {cfg : Config} {m uid : String} {d : Draw}
    {r : Record} (h : generate_file_data cfg m uid d = some r) : r.hash = "" := by
  unfold generate_file_data at h
  cases hd : rchoice cfg.devices d.deviceIdx with
  | none => simp [hd] at h
  | some dev =>
    cases hs : generate_random_status cfg d.statusIdx with
    | none => simp [hd, hs] at h
    | some st =>
      simp [hd, hs] at h
      split at h <;> (injection h with h; subst h; rfl)

theorem generate_file_data_unknown {cfg : Config} {uid : String} {d : Draw}
    {r : Record} (h : generate_file_data cfg "Unknown" uid d = some r) :
    r.mission = uid ∧ r.device_type = "unknown" ∧ r.device_status = "unknown" ∧
      r.hash = "" := by
  unfold generate_file_data at h
  cases hd : rchoice cfg.devices d.deviceIdx with
  | none => simp [hd] at h
  | some dev =>
    cases hs : generate_random_status cfg d.statusIdx with
    | none => simp [hd, hs] at h
    | some st => simp [hd, hs] at h; simp [← h]

theorem genStep_eq {cfg : Config} {uid : String} {d : Draw} {i : Nat}
    {fn : String} {r : Record} (h : genStep cfg uid d i = some (fn, r)) :
    ∃ m r0, rchoice (missionKeys cfg) d.missionIdx = some m ∧
      fn = fileName (missionCode cfg m) i ∧
      generate_file_data cfg m uid d = some r0 ∧
      r = (if pyStartsWith fn "APLUNKN" then r0
           else { r0 with hash := generate_hash r0 }) := by
  unfold genStep at h
  cases hm : rchoice (missionKeys cfg) d.missionIdx with
  | none => simp [hm] at h
  | some m =>
    cases hg : generate_file_data cfg m uid d with
    | none => simp [hm, hg] at h
    | some r0 =>
      simp [hm, hg] at h
      obtain ⟨hfn, hr⟩ := h
      exact ⟨m, r0, rfl, hfn.symm, hg, by rw [← hfn]; exact hr.symm⟩

theorem genStep_isSome {cfg : Config} {uid : String} {d : Draw} {i : Nat}
    (hm : cfg.missions ≠ []) (hd : cfg.devices ≠ []) (hs : cfg.statuses ≠ []) :
    ∃ p, genStep cfg uid d i = some p := by
  have hmk : missionKeys cfg ≠ [] := by
    simpa [missionKeys] using hm
  obtain ⟨m, hm'⟩ := rchoice_ne_nil hmk d.missionIdx
  obtain ⟨dev, hd'⟩ := rchoice_ne_nil hd d.deviceIdx
  obtain ⟨st, hs'⟩ := rchoice_ne_nil hs d.statusIdx
  have hgfd : ∃ r, generate_file_data cfg m uid d = some r := by
    unfold generate_file_data generate_random_status
    by_cases hu : m = "Unknown" <;> simp [hd', hs', hu]
  obtain ⟨r, hr⟩ := hgfd
  simp [genStep, hm', hr]

theorem genLoop_get (cfg : Config) (uid : String) (ds : Nat → Draw) :
    ∀ (k i j : Nat) (h : j < (genLoop cfg uid ds i k).files.length),
      genStep cfg uid (ds (i + j)) (i + j) =
        some ((genLoop cfg uid ds i k).files.get ⟨j, h⟩) := by
  intro k
  induction k with
  | zero => intro i j h; simp [genLoop] at h
  | succ n ih =>
    intro i j h
    cases hstep : genStep cfg uid (ds i) i with
    | none =>
      simp only [genLoop] at h
      simp [hstep] at h
    | some f =>
      simp only [genLoop] at h ⊢
      cases j with
      | zero => simpa [hstep] using hstep
      | succ j' =>
        have hlen : j' < (genLoop cfg uid ds (i + 1) n).files.length := by
          simpa [hstep] using h
        have := ih (i + 1) j' hlen
        have harith : i + (j' + 1) = i + 1 + j' := by omega
        rw [harith]
        simpa [hstep] using this

theorem genLoop_ok (cfg : Config) (uid : String) (ds : Nat → Draw)
    (hstep : ∀ d i, ∃ p, genStep cfg uid d i = some p) :
    ∀ (k i : Nat), (genLoop cfg uid ds i k).ok = true ∧
      (genLoop cfg uid ds i k).files.length = k := by
  intro k
  induction k with
  | zero => intro i; simp [genLoop]
  | succ n ih =>
    intro i
    obtain ⟨p, hp⟩ := hstep (ds i) i
    simp only [genLoop]
    simpa [hp] using ih (i + 1)

theorem genLoop_empty_missions (cfg : Config) (uid : String) (ds : Nat → Draw)
    (hm : cfg.missions = []) (k i : Nat) :
    (genLoop cfg uid ds i k).files = [] ∧
      (1 ≤ k → (genLoop cfg uid ds i k).ok = false) := by
  have hstep : genStep cfg uid (ds i) i = none := by
    unfold genStep
    simp [missionKeys, hm, rchoice]
  cases k with
  | zero => simp [genLoop]
  | succ n => rw [genLoop]; simp [hstep]

theorem run_proyecto_steps_count (cfg : Config) (inps : Nat → EpochInput) :
    ∀ k, (run_proyecto_steps cfg inps k).1 = k ∧
      (run_proyecto_steps cfg inps k).2.length = k := by
  intro k
  induction k with
  | zero => simp [run_proyecto_steps]
  | succ n ih => simp only [run_proyecto_steps]; simp [ih.1, ih.2]

theorem generate_files_eq (cfg : Config) (iter : Nat) (inp : EpochInput)
    {a b : Nat} (hr : cfg.num_files_range = [a, b]) (hab : a ≤ b) :
    generate_files cfg iter inp =
      { crashed := false
        folder_name := toString iter ++ "_" ++
          toString (a + inp.numDraw % (b - a + 1))
        num_files := some (a + inp.numDraw % (b - a + 1))
        written := (genLoop cfg inp.unique_id inp.draws 1
          (a + inp.numDraw % (b - a + 1))).files
        gen_error := !(genLoop cfg inp.unique_id inp.draws 1
          (a + inp.numDraw % (b - a + 1))).ok
        slept := (genLoop cfg inp.unique_id inp.draws 1
          (a + inp.numDraw % (b - a + 1))).ok
        files_after_cleanup := (genLoop cfg inp.unique_id inp.draws 1
          (a + inp.numDraw % (b - a + 1))).files
        dir_removed := (genLoop cfg inp.unique_id inp.draws 1
          (a + inp.numDraw % (b - a + 1))).files.isEmpty } := by
  simp [generate_files, hr, randint, hab]

theorem generate_files_written (cfg : Config) (iter : Nat) (inp : EpochInput) :
    ∃ n0, (generate_files cfg iter inp).written =
      (genLoop cfg inp.unique_id inp.draws 1 n0).files := by
  unfold generate_files
  rcases cfg.num_files_range with _ | ⟨a, _ | ⟨b, rest⟩⟩
  · exact ⟨0, by simp [genLoop]⟩
  · exact ⟨0, by simp [genLoop]⟩
  · rcases h : randint a b inp.numDraw with _ | n
    · exact ⟨0, by simp [h, genLoop]⟩
    · exact ⟨n, by simp [h]⟩

theorem written_get_genStep (cfg : Config) (iter : Nat) (inp : EpochInput)
    (j : Nat) (hj : j < (generate_files cfg iter inp).written.length) :
    genStep cfg inp.unique_id (inp.draws (1 + j)) (1 + j) =
      some ((generate_files cfg iter inp).written.get ⟨j, hj⟩) := by
  obtain ⟨n0, hw⟩ := generate_files_written cfg iter inp
  have hj' : j < (genLoop cfg inp.unique_id inp.draws 1 n0).files.length := by
    rw [← hw]; exact hj
  have hstep := genLoop_get cfg inp.unique_id inp.draws n0 1 j hj'
  rw [List.get_of_eq hw]
  exact hstep

/-! ## Helper lemmas about the digest and the file-name prefix test -/

theorem compressStep_length (st : List Nat) (kw : Nat × Nat) :
    (compressStep st kw).length = st.length := by
  unfold compressStep
  split <;> simp_all

theorem foldl_compressStep_length (l : List (Nat × Nat)) :
    ∀ st, (l.foldl compressStep st).length = st.length := by
  induction l with
  | nil => intro st; rfl
  | cons x xs ih =>
    intro st
    rw [List.foldl_cons, ih, compressStep_length]

theorem compressBlock_length (h blk : List Nat) :
    (compressBlock h blk).length = h.length := by
  unfold compressBlock
  rw [List.length_zipWith, foldl_compressStep_length]
  omega

theorem foldl_compressBlock_length (bs : List (List Nat)) :
    ∀ h, (bs.foldl compressBlock h).length = h.length := by
  induction bs with
  | nil => intro h; rfl
  | cons x xs ih =>
    intro h
    rw [List.foldl_cons, ih, compressBlock_length]

theorem sha256words_length (msg : List Nat) : (sha256words msg).length = 8 := by
  unfold sha256words
  rw [foldl_compressBlock_length]
  rfl

theorem sha256hex_ne_empty (msg : List Nat) : sha256hex msg ≠ "" := by
  unfold sha256hex
  intro hcontra
  have hdata : (((sha256words msg).map fun w =>
      (List.range 8).map fun i => hexCharLower ((w >>> (4 * (7 - i))) &&& 15)).flatten) =
      [] := congrArg String.data hcontra
  have hlen8 := sha256words_length msg
  rcases hws : sha256words msg with _ | ⟨w, ws⟩
  · rw [hws] at hlen8; simp at hlen8
  · rw [hws] at hdata
    simp [List.flatten] at hdata

theorem generate_hash_ne_empty (r : Record) : generate_hash r ≠ "" :=
  sha256hex_ne_empty _

theorem isPrefixOf_unkn (cs rest : List Char) :
    (['U', 'N', 'K', 'N'].isPrefixOf (cs ++ '-' :: rest)) =
      (['U', 'N', 'K', 'N'].isPrefixOf cs) := by
  have hnd : ('N' == '-') = false := rfl
  match cs with
  | [] =>
    have hud : ('U' == '-') = false := rfl
    simp [List.isPrefixOf, hud]
  | [a] =>
    simp [List.isPrefixOf, hnd]
  | [a, b] =>
    have hkd : ('K' == '-') = false := rfl
    simp [List.isPrefixOf, hkd]
  | [a, b, c] =>
    simp [List.isPrefixOf, hnd]
  | a :: b :: c :: d :: t =>
    simp [List.isPrefixOf]

theorem pyStartsWith_fileName (code : String) (i : Nat) :
    pyStartsWith (fileName code i) "APLUNKN" = pyStartsWith code "UNKN" := by
  unfold pyStartsWith fileName
  show List.isPrefixOf ['A', 'P', 'L', 'U', 'N', 'K', 'N']
      ('A' :: 'P' :: 'L' ::
        (((code.data ++ ('-' :: ['0', '0', '0', '0'])) ++ (toString i).data) ++
          ('.' :: ['l', 'o', 'g']))) =
    List.isPrefixOf ['U', 'N', 'K', 'N'] code.data
  simp only [List.isPrefixOf, beq_self_eq_true, Bool.true_and]
  rw [List.append_assoc, List.append_assoc, List.cons_append, List.cons_append]
  exact isPrefixOf_unkn code.data _

/-! ## Claim theorems -/

set_option maxRecDepth 100000

set_option maxHeartbeats 2000000

/-- C2: the claim states that after the cleanup phase of a normally
completing epoch, the epoch directory and every record file it contained no
longer exist.  The code contradicts this: on the spec's own scenario
configuration (two files per epoch) the epoch completes normally
(`gen_error = false`), yet after cleanup both written record files are
still present and the directory removal failed (`os.removedirs` on a
non-empty directory), so the directory still exists. -/
theorem c2_cleanup_removes_nothing :
    (generate_files scenarioCfg 1 stdInp).gen_error = false ∧
    (generate_files scenarioCfg 1 stdInp).written.length = 2 ∧
    (generate_files scenarioCfg 1 stdInp).files_after_cleanup =
      (generate_files scenarioCfg 1 stdInp).written ∧
    (generate_files scenarioCfg 1 stdInp).dir_removed = false := by
  decide

/-- C10: when `configuration.missions` is empty, every epoch writes zero
record files: the mission draw raises on the empty key list, the exception
is caught by the generic handler (`gen_error`), the run does not crash, the
cleanup phase still executes (and removes the empty epoch directory), and
the generator loop keeps iterating. -/
theorem c10_empty_missions (cfg : Config) (a b : Nat) (hm : cfg.missions = [])
    (hr : cfg.num_files_range = [a, b]) (hab : a ≤ b) (iter : Nat)
    (inp : EpochInput) (inps : Nat → EpochInput) (k : Nat) :
    (generate_files cfg iter inp).written = [] ∧
    (generate_files cfg iter inp).crashed = false ∧
    (generate_files cfg iter inp).dir_removed = true ∧
    (∀ n, (generate_files cfg iter inp).num_files = some n → 1 ≤ n →
      (generate_files cfg iter inp).gen_error = true) ∧
    (run_proyecto_steps cfg inps (k + 1)).1 = k + 1 ∧
    (run_proyecto_steps cfg inps (k + 1)).2.length = k + 1 := by
  have hcount := run_proyecto_steps_count cfg inps (k + 1)
  rw [generate_files_eq cfg iter inp hr hab]
  have hloop := genLoop_empty_missions cfg inp.unique_id inp.draws hm
    (a + inp.numDraw % (b - a + 1)) 1
  refine ⟨hloop.1, rfl, ?_, ?_, hcount.1, hcount.2⟩
  · simp [hloop.1]
  · intro n hn h1
    simp only [Option.some.injEq] at hn
    subst hn
    simp [hloop.2 h1]

/-- Witness for C10 at the all-defaults configuration. -/
theorem c10_empty_missions_witness :
    (generate_files defaultCfg 1 stdInp).written = [] ∧
    (generate_files defaultCfg 1 stdInp).crashed = false ∧
    (generate_files defaultCfg 1 stdInp).dir_removed = true ∧
    (generate_files defaultCfg 1 stdInp).gen_error = true ∧
    (run_proyecto_steps defaultCfg (fun _ => stdInp) 3).1 = 3 ∧
    (run_proyecto_steps defaultCfg (fun _ => stdInp) 3).2.length = 3 := by
  have h := c10_empty_missions defaultCfg 1 100 rfl rfl (by decide) 1 stdInp
    (fun _ => stdInp) 2
  exact ⟨h.1, h.2.1, h.2.2.1, h.2.2.2.1 1 (by decide) (by decide),
    h.2.2.2.2.1, h.2.2.2.2.2⟩

/-- C5: for a configuration with `num_files_range = [a, b]`, `a ≤ b`, and
nonempty `missions`, `devices` and `statuses` (so that generation can
proceed at all), the drawn file count `n` satisfies `a ≤ n ≤ b` (both
bounds inclusive, `random.randint` semantics) and the epoch writes exactly
`n` record files, the `j`-th (0-based) named
`APL{code}-0000{j+1}.log` for the code of the mission drawn at index
`j + 1`. -/
theorem c5_file_count_in_range (cfg : Config) (a b iter : Nat)
    (inp : EpochInput) (hr : cfg.num_files_range = [a, b]) (hab : a ≤ b)
    (hm : cfg.missions ≠ []) (hd : cfg.devices ≠ []) (hs : cfg.statuses ≠ []) :
    ∃ n, (generate_files cfg iter inp).num_files = some n ∧ a ≤ n ∧ n ≤ b ∧
      (generate_files cfg iter inp).written.length = n ∧
      ∀ (j : Nat) (hj : j < (generate_files cfg iter inp).written.length),
        ∃ m, rchoice (missionKeys cfg) ((inp.draws (1 + j)).missionIdx) = some m ∧
          ((generate_files cfg iter inp).written.get ⟨j, hj⟩).1 =
            fileName (missionCode cfg m) (1 + j) := by
  have hok := genLoop_ok cfg inp.unique_id inp.draws
    (fun d i => genStep_isSome hm hd hs) (a + inp.numDraw % (b - a + 1)) 1
  have hget : ∀ (j : Nat) (hj : j < (generate_files cfg iter inp).written.length),
      ∃ m, rchoice (missionKeys cfg) ((inp.draws (1 + j)).missionIdx) = some m ∧
        ((generate_files cfg iter inp).written.get ⟨j, hj⟩).1 =
          fileName (missionCode cfg m) (1 + j) := by
    intro j hj
    have hstep := written_get_genStep cfg iter inp j hj
    obtain ⟨m, r0, hmis, hfn, -, -⟩ := genStep_eq hstep
    exact ⟨m, hmis, hfn⟩
  refine ⟨a + inp.numDraw % (b - a + 1), ?_, Nat.le_add_right a _, ?_, ?_, hget⟩
  · rw [generate_files_eq cfg iter inp hr hab]
  · have : inp.numDraw % (b - a + 1) < b - a + 1 := Nat.mod_lt _ (Nat.succ_pos _)
    omega
  · rw [generate_files_eq cfg iter inp hr hab]
    exact hok.2

/-- Witness for C5 at the spec's scenario configuration. -/
theorem c5_file_count_in_range_witness :
    2 ≤ 2 ∧
    (generate_files scenarioCfg 1 stdInp).num_files = some 2 ∧
    (generate_files scenarioCfg 1 stdInp).written.length = 2 ∧
    ∃ m, rchoice (missionKeys scenarioCfg) ((stdInp.draws 1).missionIdx) = some m ∧
      ((generate_files scenarioCfg 1 stdInp).written.get
        ⟨0, of_decide_eq_true rfl⟩).1 = fileName (missionCode scenarioCfg m) 1 := by
  obtain ⟨n, h1, h2, h3, h4, h5⟩ := c5_file_count_in_range scenarioCfg 2 2 1
    stdInp rfl (by decide) (by decide) (by decide) (by decide)
  have hn : n = 2 := le_antisymm h3 h2
  subst hn
  have h6 := h5 0 (by rw [h4]; decide)
  refine ⟨by decide, h1, h4, ?_⟩
  simpa using h6

/-- C1 counterexample: the claim states that for a record synthesized with a
mission other than `"Unknown"`, the stored hash equals the SHA-256 hex
digest of the record's other four fields JSON-serialized excluding the hash
field.  The code instead hashes the JSON of the full five-key dictionary
(whose `hash` entry holds the empty string): at this concrete epoch the
record's mission is `"Apollo"`, yet its stored hash differs from the
claim's four-field digest. -/
theorem c1_counterexample :
    ((generate_files oneFileCfg 1 stdInp).written.getD 0 default).2.mission =
      "Apollo" ∧
    ("Apollo" : String) ≠ "Unknown" ∧
    ((generate_files oneFileCfg 1 stdInp).written.getD 0 default).2.hash ≠
      claimed_record_digest
        ((generate_files oneFileCfg 1 stdInp).written.getD 0 default).2 := by
  decide

/-- C1 (amended): for every written record whose file name does not start
with `"APLUNKN"` (the code's hash guard), the stored hash is the SHA-256
hex digest of the record JSON-serialized with all five keys in insertion
order, the `hash` entry holding the empty string (its pre-population
value); equivalently, clearing the stored record's hash field and
recomputing the digest reproduces the stored hash (round-trip). -/
theorem c1_hash_roundtrip (cfg : Config) (iter : Nat) (inp : EpochInput)
    (j : Nat) (hj : j < (generate_files cfg iter inp).written.length)
    (hpre : pyStartsWith ((generate_files cfg iter inp).written.get ⟨j, hj⟩).1
      "APLUNKN" = false) :
    ((generate_files cfg iter inp).written.get ⟨j, hj⟩).2.hash =
      generate_hash
        { ((generate_files cfg iter inp).written.get ⟨j, hj⟩).2 with
          hash := "" } := by
  have hstep := written_get_genStep cfg iter inp j hj
  obtain ⟨m, r0, hmis, hfn, hgfd, hr⟩ := genStep_eq hstep
  have h0 : r0.hash = "" := generate_file_data_hash hgfd
  rw [hr, hpre]
  simp only [Bool.false_eq_true, if_false]
  obtain ⟨d0, m0, t0, s0, hh0⟩ := r0
  simp only [Record.hash] at h0
  subst h0
  rfl

/-- Witness for C1 at the one-file scenario configuration. -/
theorem c1_hash_roundtrip_witness :
    pyStartsWith ((generate_files oneFileCfg 1 stdInp).written.get
        ⟨0, of_decide_eq_true rfl⟩).1 "APLUNKN" = false ∧
    ((generate_files oneFileCfg 1 stdInp).written.get
        ⟨0, of_decide_eq_true rfl⟩).2.hash =
      generate_hash
        { ((generate_files oneFileCfg 1 stdInp).written.get
            ⟨0, of_decide_eq_true rfl⟩).2 with hash := "" } :=
  ⟨by decide,
    c1_hash_roundtrip oneFileCfg 1 stdInp 0 (of_decide_eq_true rfl) (by decide)⟩

/-- C4 counterexample: the claim states that every record produced under the
`"Unknown"` mission has an empty hash.  With a configuration mapping
`"Unknown"` to the short code `"ABC"`, the file name does not start with
`"APLUNKN"`, so the code computes and stores a hash for the
`"Unknown"`-mission record (whose mission field holds the session
identifier): the stored hash is not empty. -/
theorem c4_counterexample :
    rchoice (missionKeys unknownOddCodeCfg) ((stdInp.draws 1).missionIdx) =
      some "Unknown" ∧
    ((generate_files unknownOddCodeCfg 1 stdInp).written.getD 0
      default).2.mission = "session-1" ∧
    ((generate_files unknownOddCodeCfg 1 stdInp).written.getD 0
      default).2.device_type = "unknown" ∧
    ((generate_files unknownOddCodeCfg 1 stdInp).written.getD 0
      default).2.device_status = "unknown" ∧
    ((generate_files unknownOddCodeCfg 1 stdInp).written.getD 0
      default).2.hash ≠ "" := by
  decide

/-- C4 (amended): every record produced under the `"Unknown"` mission in an
epoch carries the epoch's single session identifier as its mission, has
`device_type` and `device_status` equal to `"unknown"`, and its hash is the
empty string provided the generated file name starts with `"APLUNKN"`
(i.e. the `"Unknown"` mission's short code starts with `"UNKN"`). -/
theorem c4_unknown_record_fields (cfg : Config) (iter : Nat) (inp : EpochInput)
    (j : Nat) (hj : j < (generate_files cfg iter inp).written.length)
    (hum : rchoice (missionKeys cfg) ((inp.draws (1 + j)).missionIdx) =
      some "Unknown") :
    ((generate_files cfg iter inp).written.get ⟨j, hj⟩).2.mission =
      inp.unique_id ∧
    ((generate_files cfg iter inp).written.get ⟨j, hj⟩).2.device_type =
      "unknown" ∧
    ((generate_files cfg iter inp).written.get ⟨j, hj⟩).2.device_status =
      "unknown" ∧
    (pyStartsWith ((generate_files cfg iter inp).written.get ⟨j, hj⟩).1
        "APLUNKN" = true →
      ((generate_files cfg iter inp).written.get ⟨j, hj⟩).2.hash = "") := by
  have hstep := written_get_genStep cfg iter inp j hj
  obtain ⟨m, r0, hmis, hfn, hgfd, hr⟩ := genStep_eq hstep
  rw [hum] at hmis
  injection hmis with hmeq
  subst hmeq
  obtain ⟨hu1, hu2, hu3, hu4⟩ := generate_file_data_unknown hgfd
  rw [hr]
  cases hsw : pyStartsWith
      ((generate_files cfg iter inp).written.get ⟨j, hj⟩).1 "APLUNKN" with
  | true =>
    simp only [if_pos rfl]
    exact ⟨hu1, hu2, hu3, fun _ => hu4⟩
  | false =>
    simp only [Bool.false_eq_true, if_false]
    refine ⟨hu1, hu2, hu3, fun hcontra => ?_⟩
    exact absurd hcontra (by simp)

/-- Witness for C4 at a configuration mapping `"Unknown"` to the code
`"UNKN"`. -/
theorem c4_unknown_record_fields_witness :
    rchoice (missionKeys unknownUnknCodeCfg) ((stdInp.draws 1).missionIdx) =
      some "Unknown" ∧
    ((generate_files unknownUnknCodeCfg 1 stdInp).written.get
      ⟨0, of_decide_eq_true rfl⟩).2.mission = "session-1" ∧
    ((generate_files unknownUnknCodeCfg 1 stdInp).written.get
      ⟨0, of_decide_eq_true rfl⟩).2.device_type = "unknown" ∧
    ((generate_files unknownUnknCodeCfg 1 stdInp).written.get
      ⟨0, of_decide_eq_true rfl⟩).2.device_status = "unknown" ∧
    ((generate_files unknownUnknCodeCfg 1 stdInp).written.get
      ⟨0, of_decide_eq_true rfl⟩).2.hash = "" := by
  have h := c4_unknown_record_fields unknownUnknCodeCfg 1 stdInp 0
    (of_decide_eq_true rfl) (by decide)
  exact ⟨by decide, h.1, h.2.1, h.2.2.1, h.2.2.2 (by decide)⟩

/-- C8: whether a record's hash is computed is decided solely by the
constructed file name carrying the `"APLUNKN"` prefix, not by the mission
value: the stored hash is nonempty exactly when the file name does not
start with `"APLUNKN"`, and for whatever mission was drawn, the file name
starts with `"APLUNKN"` exactly when that mission's short code starts with
`"UNKN"`. -/
theorem c8_hash_policy (cfg : Config) (iter : Nat) (inp : EpochInput)
    (j : Nat) (hj : j < (generate_files cfg iter inp).written.length) :
    (((generate_files cfg iter inp).written.get ⟨j, hj⟩).2.hash ≠ "" ↔
      pyStartsWith ((generate_files cfg iter inp).written.get ⟨j, hj⟩).1
        "APLUNKN" = false) ∧
    ∀ m, rchoice (missionKeys cfg) ((inp.draws (1 + j)).missionIdx) = some m →
      pyStartsWith ((generate_files cfg iter inp).written.get ⟨j, hj⟩).1
        "APLUNKN" = pyStartsWith (missionCode cfg m) "UNKN" := by
  have hstep := written_get_genStep cfg iter inp j hj
  obtain ⟨m0, r0, hmis, hfn, hgfd, hr⟩ := genStep_eq hstep
  have h0 : r0.hash = "" := generate_file_data_hash hgfd
  constructor
  · rw [hr]
    cases hsw : pyStartsWith
        ((generate_files cfg iter inp).written.get ⟨j, hj⟩).1 "APLUNKN" with
    | true => simp [h0]
    | false => simp [generate_hash_ne_empty]
  · intro m hm'
    rw [hm'] at hmis
    injection hmis with hmeq
    subst hmeq
    rw [hfn]
    exact pyStartsWith_fileName (missionCode cfg m) (1 + j)

/-- Witness for C8 at the spec's scenario configuration. -/
theorem c8_hash_policy_witness :
    (((generate_files scenarioCfg 1 stdInp).written.get
        ⟨0, of_decide_eq_true rfl⟩).2.hash ≠ "" ↔
      pyStartsWith ((generate_files scenarioCfg 1 stdInp).written.get
        ⟨0, of_decide_eq_true rfl⟩).1 "APLUNKN" = false) ∧
    pyStartsWith ((generate_files scenarioCfg 1 stdInp).written.get
        ⟨0, of_decide_eq_true rfl⟩).1 "APLUNKN" =
      pyStartsWith (missionCode scenarioCfg "Apollo") "UNKN" := by
  have h := c8_hash_policy scenarioCfg 1 stdInp 0 (of_decide_eq_true rfl)
  exact ⟨h.1, h.2 "Apollo" (by decide)⟩

/-- C3 counterexample: the claim states that each of the four analysis
functions returns formatted text without raising on every input, including
the empty one.  On the empty record collection, `pd.DataFrame([])` has no
columns at all, so every one of the four analyses raises a `KeyError` at
its first column access instead of returning text. -/
theorem c3_counterexample :
    (analyze_events (pdDataFrame [])).isOk = false ∧
    (detect_disconnections (pdDataFrame [])).isOk = false ∧
    (consolidate_missions (pdDataFrame [])).isOk = false ∧
    (calculate_percentages (pdDataFrame [])).isOk = false := by
  decide

theorem pdDataFrame_cols_ne_nil {rows : List Record} (h : rows ≠ []) :
    (pdDataFrame rows).cols = recordColumns := by
  cases rows with
  | nil => exact absurd rfl h
  | cons a l => rfl

/-- C3 (amended): for every nonempty input collection of records, each of
the four analysis functions returns formatted text without raising — in
particular when no row matches the analysis's filter, grouping over the
zero matching rows yields an empty table, not an error.  On the empty
collection each of the four raises a `KeyError` (see the
counterexample), which `generate_report`'s handler catches. -/
theorem c3_nonempty_analyses (rows : List Record) (h : rows ≠ []) :
    (analyze_events (pdDataFrame rows)).isOk = true ∧
    (detect_disconnections (pdDataFrame rows)).isOk = true ∧
    (consolidate_missions (pdDataFrame rows)).isOk = true ∧
    (calculate_percentages (pdDataFrame rows)).isOk = true := by
  have hcols := pdDataFrame_cols_ne_nil h
  refine ⟨?_, ?_, ?_, ?_⟩ <;>
    simp [analyze_events, detect_disconnections, consolidate_missions,
      calculate_percentages, groupbySize, filterByStatus, hcols, recordColumns,
      Except.isOk, Except.toBool, Bind.bind, Except.bind, Functor.map,
      Except.map, Pure.pure, Except.pure]

/-- Witness for C3 on a one-record collection (which matches no
disconnection filter row is also exercised: `recA` has status `"good"`). -/
theorem c3_nonempty_analyses_witness :
    ([recA] : List Record) ≠ [] ∧
    (analyze_events (pdDataFrame [recA])).isOk = true ∧
    (detect_disconnections (pdDataFrame [recA])).isOk = true ∧
    (consolidate_missions (pdDataFrame [recA])).isOk = true ∧
    (calculate_percentages (pdDataFrame [recA])).isOk = true := by
  have h := c3_nonempty_analyses [recA] (by decide)
  exact ⟨by decide, h.1, h.2.1, h.2.2.1, h.2.2.2⟩

/-! ## Permutation invariance of the analyses -/

theorem groupSizes_perm {rows1 rows2 : List Record} (h : rows1.Perm rows2)
    (ks : List String) : groupSizes ks rows1 = groupSizes ks rows2 := by
  unfold groupSizes
  have hkeys : (rows1.map (keyTuple ks)).dedup.Perm
      (rows2.map (keyTuple ks)).dedup := (h.map (keyTuple ks)).dedup
  have hsorted : List.insertionSort (· ≤ ·) (rows1.map (keyTuple ks)).dedup =
      List.insertionSort (· ≤ ·) (rows2.map (keyTuple ks)).dedup := by
    haveI : IsAntisymm (List String) (· ≤ ·) :=
      ⟨fun _ _ h1 h2 => le_antisymm h1 h2⟩
    refine List.eq_of_perm_of_sorted ?_ (List.sorted_insertionSort _ _)
      (List.sorted_insertionSort _ _)
    exact ((List.perm_insertionSort _ _).trans hkeys).trans
      (List.perm_insertionSort _ _).symm
  rw [hsorted]
  have hfun : (fun k => (k, rows1.countP (fun r => keyTuple ks r == k))) =
      (fun k => (k, rows2.countP (fun r => keyTuple ks r == k))) := by
    funext k
    rw [List.Perm.countP_eq _ h]
  rw [hfun]

theorem groupbySize_congr {c : List String} {r1 r2 : List Record}
    (h : r1.Perm r2) (ks : List String) :
    groupbySize ⟨c, r1⟩ ks = groupbySize ⟨c, r2⟩ ks := by
  unfold groupbySize
  rw [groupSizes_perm h ks]

theorem pdDataFrame_cols_perm {d1 d2 : List Record} (h : d1.Perm d2) :
    (pdDataFrame d1).cols = (pdDataFrame d2).cols := by
  have hemp : d1.isEmpty = d2.isEmpty := by
    cases d1 with
    | nil =>
      have h2 : d2 = [] := List.perm_nil.mp h.symm
      rw [h2]
    | cons a l =>
      cases d2 with
      | nil => exact absurd (List.perm_nil.mp h) (by simp)
      | cons b m => rfl
  unfold pdDataFrame
  rw [hemp]

theorem except_bind_ok {ε α β : Type} (a : α) (f : α → Except ε β) :
    ((Except.ok a : Except ε α) >>= f) = f a := rfl

theorem groupbySize_pdDataFrame_perm {d1 d2 : List Record} (h : d1.Perm d2)
    (ks : List String) :
    groupbySize (pdDataFrame d1) ks = groupbySize (pdDataFrame d2) ks := by
  have h1 : pdDataFrame d1 = ⟨(pdDataFrame d2).cols, d1⟩ := by
    rw [← pdDataFrame_cols_perm h]; rfl
  rw [h1, groupbySize_congr h]
  rfl

theorem filter_status_congr {d1 d2 : List Record} (h : d1.Perm d2)
    (c : List String) (p : Record → Bool) (ks : List String) :
    groupbySize ⟨c, d1.filter p⟩ ks = groupbySize ⟨c, d2.filter p⟩ ks :=
  groupbySize_congr (h.filter p) ks

theorem analyze_events_perm {d1 d2 : List Record} (h : d1.Perm d2) :
    analyze_events (pdDataFrame d1) = analyze_events (pdDataFrame d2) := by
  unfold analyze_events
  rw [groupbySize_pdDataFrame_perm h]

theorem detect_disconnections_perm {d1 d2 : List Record} (h : d1.Perm d2) :
    detect_disconnections (pdDataFrame d1) =
      detect_disconnections (pdDataFrame d2) := by
  have hcols := pdDataFrame_cols_perm h
  have hr1 : (pdDataFrame d1).rows = d1 := rfl
  have hr2 : (pdDataFrame d2).rows = d2 := rfl
  unfold detect_disconnections filterByStatus
  rw [hcols, hr1, hr2]
  rcases Bool.eq_false_or_eq_true
      ((pdDataFrame d2).cols.contains "device_status") with hc | hc
  · rw [hc]
    simp only [reduceIte, except_bind_ok]
    rw [groupbySize_congr (h.filter _)]
  · rw [hc]
    rw [if_neg (show ¬ (false = true) by decide),
      if_neg (show ¬ (false = true) by decide)]

theorem consolidate_missions_perm {d1 d2 : List Record} (h : d1.Perm d2) :
    consolidate_missions (pdDataFrame d1) =
      consolidate_missions (pdDataFrame d2) := by
  have hcols := pdDataFrame_cols_perm h
  have hr1 : (pdDataFrame d1).rows = d1 := rfl
  have hr2 : (pdDataFrame d2).rows = d2 := rfl
  unfold consolidate_missions filterByStatus
  rw [hcols, hr1, hr2]
  rcases Bool.eq_false_or_eq_true
      ((pdDataFrame d2).cols.contains "device_status") with hc | hc
  · rw [hc]
    simp only [reduceIte, except_bind_ok]
    rw [groupbySize_congr (h.filter _)]
  · rw [hc]
    rw [if_neg (show ¬ (false = true) by decide),
      if_neg (show ¬ (false = true) by decide)]

theorem calculate_percentages_perm {d1 d2 : List Record} (h : d1.Perm d2) :
    calculate_percentages (pdDataFrame d1) =
      calculate_percentages (pdDataFrame d2) := by
  have hlen : (pdDataFrame d1).rows.length = (pdDataFrame d2).rows.length :=
    h.length_eq
  unfold calculate_percentages
  rw [hlen, groupbySize_pdDataFrame_perm h]

theorem report_body_perm {d1 d2 : List Record} (h : d1.Perm d2) :
    report_body (pdDataFrame d1) = report_body (pdDataFrame d2) := by
  unfold report_body
  rw [analyze_events_perm h, detect_disconnections_perm h,
    consolidate_missions_perm h, calculate_percentages_perm h]

/-- C6: running the report generation twice against an unchanged devices
tree — the second run loading the same epoch folder's records in any order
(`os.walk` order is arbitrary) — produces reports with identical analysis
bodies; the report file names agree exactly when the two run timestamps
agree. -/
theorem c6_report_deterministic (folder : String) (d1 d2 : List Record)
    (t1 t2 : String) (h : d1.Perm d2) :
    (generate_report folder (pdDataFrame d1) t1).2 =
      (generate_report folder (pdDataFrame d2) t2).2 ∧
    ((generate_report folder (pdDataFrame d1) t1).1 =
      (generate_report folder (pdDataFrame d2) t2).1 ↔ t1 = t2) := by
  constructor
  · exact report_body_perm h
  · unfold generate_report reportFileName
    constructor
    · intro heq
      have hd := congrArg String.data heq
      simp only [String.data_append] at hd
      have hd' := List.append_cancel_right hd
      have hd'' := List.append_cancel_left hd'
      exact String.ext hd''
    · intro heq
      rw [heq]

/-- Witness for C6 on a two-record epoch folder loaded in two different
orders with two different timestamps. -/
theorem c6_report_deterministic_witness :
    ([recA, recB] : List Record).Perm [recB, recA] ∧
    (generate_report "1_2" (pdDataFrame [recA, recB]) "241001120000").2 =
      (generate_report "1_2" (pdDataFrame [recB, recA]) "241001120001").2 ∧
    ((generate_report "1_2" (pdDataFrame [recA, recB]) "241001120000").1 =
      (generate_report "1_2" (pdDataFrame [recB, recA]) "241001120001").1 ↔
      ("241001120000" : String) = "241001120001") := by
  have h := c6_report_deterministic "1_2" [recA, recB] [recB, recA]
    "241001120000" "241001120001" (by decide)
  exact ⟨by decide, h.1, h.2⟩

/-- C7: configuration loading fails (the process exits with status 1,
returning no configuration object at all) when the file is missing or its
content is not well-formed JSON; when the file parses, each individually
absent key falls back to its documented default. -/
theorem c7_config_loading (f : ConfigFile) (c : Config)
    (hok : load_config (.parsed f) = .ok c) :
    load_config .missing = .error 1 ∧
    load_config .badJson = .error 1 ∧
    (f.output_path = none → c.output_path = "./devices") ∧
    (f.devices = none → c.devices = []) ∧
    (f.missions = none → c.missions = []) ∧
    (f.statuses = none → c.statuses = defaultStatuses) ∧
    (f.time_sleep = none → c.time_sleep = 20) ∧
    (f.num_files_range = none → c.num_files_range = [1, 100]) := by
  simp only [load_config] at hok
  injection hok with hc
  refine ⟨rfl, rfl, ?_, ?_, ?_, ?_, ?_, ?_⟩ <;>
    (intro hnone; rw [← hc]; simp [hnone])

/-- Witness for C7 at the empty configuration file (every key absent). -/
theorem c7_config_loading_witness :
    load_config .missing = .error 1 ∧
    load_config .badJson = .error 1 ∧
    load_config (.parsed {}) = .ok defaultCfg ∧
    defaultCfg.output_path = "./devices" ∧
    defaultCfg.devices = [] ∧
    defaultCfg.missions = [] ∧
    defaultCfg.statuses = defaultStatuses ∧
    defaultCfg.time_sleep = 20 ∧
    defaultCfg.num_files_range = [1, 100] := by
  have h := c7_config_loading {} defaultCfg rfl
  exact ⟨h.1, h.2.1, rfl, h.2.2.1 rfl, h.2.2.2.1 rfl, h.2.2.2.2.1 rfl,
    h.2.2.2.2.2.1 rfl, h.2.2.2.2.2.2.1 rfl, h.2.2.2.2.2.2.2 rfl⟩

theorem archiveLoopE_nofail (fail : Nat → Bool) (hf : ∀ i, fail i = false) :
    ∀ (snapshot : List String) (idx : Nat) (dev bk : List String),
      ∃ dev' bk', archiveLoopE fail snapshot idx dev bk = .ok (dev', bk') ∧
        (∀ X ∈ snapshot, X ∈ bk' ∧ X ∉ dev') ∧ dev' ⊆ dev ∧ bk ⊆ bk' := by
  intro snapshot
  induction snapshot with
  | nil =>
    intro idx dev bk
    exact ⟨dev, bk, rfl, by simp, List.Subset.refl dev, List.Subset.refl bk⟩
  | cons x rest ih =>
    intro idx dev bk
    obtain ⟨dev', bk', heq, hmem, hsub, hbk⟩ :=
      ih (idx + 1) (dev.filter fun y => y ≠ x) (List.insert x bk)
    refine ⟨dev', bk', ?_, ?_, ?_, ?_⟩
    · simp only [archiveLoopE, hf idx, Bool.false_eq_true, if_false]
      exact heq
    · intro X hX
      rcases List.mem_cons.mp hX with hX | hX
      · subst hX
        refine ⟨hbk (List.mem_insert_self X bk), fun hXdev => ?_⟩
        have hmemf := hsub hXdev
        simp [List.mem_filter] at hmemf
      · exact hmem X hX
    · exact hsub.trans (List.filter_subset' _)
    · exact (List.subset_insert x bk).trans hbk

/-- C9: archiving first ensures the backup root exists, then moves each
immediate subdirectory `X` of the devices root to `backups/X`: when no move
fails, afterwards every `X` is under the backup root and no longer under
the devices root; and when some move raises, the exception is caught — the
caller receives the (partial) state at the raise point instead of a
propagated error. -/
theorem c9_archive (fs : BackupFS) (fail : Nat → Bool) :
    (move_devices_to_backup fs fail).backupRootExists = true ∧
    ((∀ i, fail i = false) → ∀ X ∈ fs.devicesSubdirs,
      X ∈ (move_devices_to_backup fs fail).backups ∧
      X ∉ (move_devices_to_backup fs fail).devicesSubdirs) ∧
    (∀ dev bk, archiveLoopE fail fs.devicesSubdirs 0 fs.devicesSubdirs
        fs.backups = .error (dev, bk) →
      move_devices_to_backup fs fail = ⟨dev, bk, true⟩) := by
  refine ⟨?_, ?_, ?_⟩
  · unfold move_devices_to_backup
    rcases harch : archiveLoopE fail fs.devicesSubdirs 0 fs.devicesSubdirs
        fs.backups with p | p <;> rcases p with ⟨dev, bk⟩ <;> rfl
  · intro hf X hX
    obtain ⟨dev', bk', heq, hmem, -, -⟩ := archiveLoopE_nofail fail hf
      fs.devicesSubdirs 0 fs.devicesSubdirs fs.backups
    unfold move_devices_to_backup
    rw [heq]
    exact hmem X hX
  · intro dev bk harch
    unfold move_devices_to_backup
    rw [harch]

/-- Witness for C9 on a two-folder devices tree with no failures. -/
theorem c9_archive_witness :
    (move_devices_to_backup fsSample (fun _ => false)).backupRootExists = true ∧
    "1_2" ∈ (move_devices_to_backup fsSample (fun _ => false)).backups ∧
    "1_2" ∉ (move_devices_to_backup fsSample (fun _ => false)).devicesSubdirs := by
  have h := c9_archive fsSample (fun _ => false)
  have h2 := h.2.1 (fun _ => rfl) "1_2" (by decide)
  exact ⟨h.1, h2.1, h2.2⟩

end Apolo11
